/-
Verification of the data-acquisition / caching service layer of the
Stock-Analyst repository.

The development shallowly embeds the three relevant modules:
  - src/config/modelConfig.ts      (configuration record, validation, the
    environment-specific configuration factory with its shallow-copy heap
    behaviour)
  - src/services/lstmModelService.ts   (data provider: mock/fallback
    generators, sentiment weighting, prediction assembly)
  - src/services/mockStockService.ts   (orchestrator: TTL cache and the
    three public operations getStockInfo / getPredictions / getNews)

Modelling conventions:
  - TypeScript numbers are embedded as ℚ (the numeric literals of the
    source are exact decimal fractions); integer-valued quantities
    produced by Math.floor are ℤ; timestamps (Date.now(), milliseconds)
    and calendar days are ℤ.
  - Math.random() is embedded as an explicit stream r : ℕ → ℚ of the
    successive values returned by the generator, with the hypothesis
    RandOk r (each value lies in [0,1)) where a property needs it.
  - Date strings are embedded as the underlying day number (ℤ): the
    source only ever formats today ± i days, so a bar or forecast point
    carries the integer day instead of the formatted string.
  - An async function that can reject is embedded in two stages: a
    `...Try` function returning `Except Unit _` (the try block, which
    propagates a rejection of the awaited upstream call), and the final
    function, which applies the catch handler to the Try result.  The
    outcome of an awaited upstream call is passed in explicitly as an
    `Except Unit _` argument.
-/
import Mathlib

/-! ## Configuration module (src/config/modelConfig.ts) -/

structure LstmConfig where
  sequenceLength : ℚ
  hiddenUnits : ℚ
  layers : ℚ
  dropout : ℚ
  recurrentDropout : ℚ
deriving DecidableEq

structure EarlyStoppingConfig where
  patience : ℚ
  minDelta : ℚ
deriving DecidableEq

structure TrainingConfig where
  epochs : ℚ
  batchSize : ℚ
  learningRate : ℚ
  validationSplit : ℚ
  earlyStopping : EarlyStoppingConfig
deriving DecidableEq

inductive ScalingMethod where
  | minmax
  | standard
  | robust
deriving DecidableEq

structure DataConfig where
  features : List String
  targetColumn : String
  scalingMethod : ScalingMethod
  testSize : ℚ
  predictionDays : ℚ
deriving DecidableEq

structure SentimentThresholdConfig where
  positive : ℚ
  negative : ℚ
deriving DecidableEq

inductive WeightingStrategy where
  | linear
  | exponential
  | sigmoid
deriving DecidableEq

structure FinbertConfig where
  model : String
  maxLength : ℚ
  sentimentThreshold : SentimentThresholdConfig
  weightingStrategy : WeightingStrategy
deriving DecidableEq

structure NewsConfig where
  maxArticles : ℚ
  timeWindow : ℚ
  sources : List String
  relevanceThreshold : ℚ
deriving DecidableEq

structure ApiConfig where
  yfinanceTimeout : ℚ
  newsApiTimeout : ℚ
  retryAttempts : ℚ
  cacheTimeout : ℚ
deriving DecidableEq

structure ModelConfig where
  lstm : LstmConfig
  training : TrainingConfig
  data : DataConfig
  finbert : FinbertConfig
  news : NewsConfig
  api : ApiConfig
deriving DecidableEq

def defaultModelConfig : ModelConfig :=
  { lstm :=
      { sequenceLength := 60
        hiddenUnits := 128
        layers := 2
        dropout := 0.2
        recurrentDropout := 0.2 }
    training :=
      { epochs := 100
        batchSize := 32
        learningRate := 0.001
        validationSplit := 0.2
        earlyStopping := { patience := 10, minDelta := 0.001 } }
    data :=
      { features :=
          ["close", "volume", "high", "low", "open", "sentiment_score",
           "news_volume", "volatility", "rsi", "macd", "bollinger_upper",
           "bollinger_lower"]
        targetColumn := "close"
        scalingMethod := .minmax
        testSize := 0.2
        predictionDays := 3 }
    finbert :=
      { model := "ProsusAI/finbert"
        maxLength := 512
        sentimentThreshold := { positive := 0.3, negative := -0.3 }
        weightingStrategy := .exponential }
    news :=
      { maxArticles := 50
        timeWindow := 72
        sources :=
          ["reuters", "bloomberg", "cnbc", "marketwatch", "financial-times", "wsj"]
        relevanceThreshold := 0.5 }
    api :=
      { yfinanceTimeout := 30000
        newsApiTimeout := 15000
        retryAttempts := 3
        cacheTimeout := 300000 } }

/-- Embedding of validateModelConfig: each conditional push onto the errors
array becomes a conditional singleton appended in source order. -/
def validateModelConfig (config : ModelConfig) : List String :=
  (if config.lstm.sequenceLength < 1 then
    ["LSTM sequence length must be at least 1"] else []) ++
  (if config.lstm.hiddenUnits < 1 then
    ["LSTM hidden units must be at least 1"] else []) ++
  (if config.lstm.layers < 1 then
    ["LSTM layers must be at least 1"] else []) ++
  (if config.lstm.dropout < 0 ∨ config.lstm.dropout ≥ 1 then
    ["LSTM dropout must be between 0 and 1"] else []) ++
  (if config.training.epochs < 1 then
    ["Training epochs must be at least 1"] else []) ++
  (if config.training.batchSize < 1 then
    ["Training batch size must be at least 1"] else []) ++
  (if config.training.learningRate ≤ 0 then
    ["Learning rate must be positive"] else []) ++
  (if config.training.validationSplit < 0 ∨ config.training.validationSplit ≥ 1 then
    ["Validation split must be between 0 and 1"] else []) ++
  (if config.data.features.length = 0 then
    ["At least one feature must be specified"] else []) ++
  (if config.data.testSize < 0 ∨ config.data.testSize ≥ 1 then
    ["Test size must be between 0 and 1"] else []) ++
  (if config.data.predictionDays < 1 then
    ["Prediction days must be at least 1"] else [])

inductive ConfigEnvironment where
  | development
  | production
  | testing
deriving DecidableEq

/-- Heap of the configuration module.  In JavaScript the nested objects of
defaultModelConfig (training, lstm, news, api, data, finbert) are mutable
objects on the heap; the module-level constant holds references to them.
Each field below maps an address to the current contents of the object of
that shape; the module allocates exactly one object of each shape, at
address 0. -/
structure ConfigHeap where
  trainingAt : ℕ → TrainingConfig
  lstmAt : ℕ → LstmConfig
  newsAt : ℕ → NewsConfig
  apiAt : ℕ → ApiConfig
  dataAt : ℕ → DataConfig
  finbertAt : ℕ → FinbertConfig

/-- A ModelConfig value as it exists at runtime: a record of references to
the six nested objects. -/
structure ModelConfigRef where
  lstm : ℕ
  training : ℕ
  data : ℕ
  finbert : ℕ
  news : ℕ
  api : ℕ
deriving DecidableEq

/-- The module-level defaultModelConfig object: references to the six
nested objects allocated by the initializer. -/
def defaultModelConfigRef : ModelConfigRef :=
  { lstm := 0, training := 0, data := 0, finbert := 0, news := 0, api := 0 }

/-- Heap state after the module initializer has run: the single object of
each shape holds the corresponding literal of defaultModelConfig. -/
def initialConfigHeap : ConfigHeap :=
  { trainingAt := fun _ => defaultModelConfig.training
    lstmAt := fun _ => defaultModelConfig.lstm
    newsAt := fun _ => defaultModelConfig.news
    apiAt := fun _ => defaultModelConfig.api
    dataAt := fun _ => defaultModelConfig.data
    finbertAt := fun _ => defaultModelConfig.finbert }

/-- Read a ModelConfig value out of the heap through a reference. -/
def resolveConfig (h : ConfigHeap) (c : ModelConfigRef) : ModelConfig :=
  { lstm := h.lstmAt c.lstm
    training := h.trainingAt c.training
    data := h.dataAt c.data
    finbert := h.finbertAt c.finbert
    news := h.newsAt c.news
    api := h.apiAt c.api }

def writeTraining (h : ConfigHeap) (a : ℕ) (f : TrainingConfig → TrainingConfig) :
    ConfigHeap :=
  { h with trainingAt := fun x => if x = a then f (h.trainingAt x) else h.trainingAt x }

def writeLstm (h : ConfigHeap) (a : ℕ) (f : LstmConfig → LstmConfig) : ConfigHeap :=
  { h with lstmAt := fun x => if x = a then f (h.lstmAt x) else h.lstmAt x }

def writeNews (h : ConfigHeap) (a : ℕ) (f : NewsConfig → NewsConfig) : ConfigHeap :=
  { h with newsAt := fun x => if x = a then f (h.newsAt x) else h.newsAt x }

def writeApi (h : ConfigHeap) (a : ℕ) (f : ApiConfig → ApiConfig) : ConfigHeap :=
  { h with apiAt := fun x => if x = a then f (h.apiAt x) else h.apiAt x }

/-- Embedding of getModelConfig.  The source line
`const config = { ...defaultModelConfig }` is a shallow spread: it copies
the six top-level fields of defaultModelConfig, which are references, so
the copy aliases the very same nested objects.  The subsequent field
assignments are heap writes through those references. -/
def getModelConfig (environment : ConfigEnvironment) (h : ConfigHeap) :
    ModelConfigRef × ConfigHeap :=
  let config : ModelConfigRef :=
    { lstm := defaultModelConfigRef.lstm
      training := defaultModelConfigRef.training
      data := defaultModelConfigRef.data
      finbert := defaultModelConfigRef.finbert
      news := defaultModelConfigRef.news
      api := defaultModelConfigRef.api }
  match environment with
  | .development =>
      let h := writeTraining h config.training (fun t => { t with epochs := 10 })
      let h := writeLstm h config.lstm (fun l => { l with sequenceLength := 30 })
      let h := writeNews h config.news (fun n => { n with maxArticles := 10 })
      (config, h)
  | .testing =>
      let h := writeTraining h config.training (fun t => { t with epochs := 5 })
      let h := writeLstm h config.lstm (fun l => { l with sequenceLength := 10 })
      let h := writeNews h config.news (fun n => { n with maxArticles := 5 })
      let h := writeApi h config.api (fun a => { a with cacheTimeout := 1000 })
      (config, h)
  | .production => (config, h)

/-! ## Data provider (src/services/lstmModelService.ts) -/

/-- Stream of successive Math.random() results. -/
def RandOk (r : ℕ → ℚ) : Prop := ∀ i, 0 ≤ r i ∧ r i < 1

inductive Sentiment where
  | positive
  | negative
  | neutral
deriving DecidableEq

structure StockData where
  symbol : String
  name : String
  currentPrice : ℚ
  change : ℚ
  changePercent : ℚ
  volume : ℤ
  marketCap : String
  high52Week : ℚ
  low52Week : ℚ
  peRatio : ℚ
  dividendYield : ℚ
deriving DecidableEq

/-- HistoricalData: `open` is a Lean keyword, so the field is `open_`. -/
structure HistoricalData where
  date : ℤ
  open_ : ℚ
  high : ℚ
  low : ℚ
  close : ℚ
  volume : ℤ
  adjustedClose : ℚ
deriving DecidableEq

structure LSTMPrediction where
  date : ℤ
  predictedPrice : ℚ
  confidence : ℚ
  upperBound : ℚ
  lowerBound : ℚ
deriving DecidableEq

structure NewsData where
  id : String
  headline : String
  summary : String
  content : String
  sentiment : Sentiment
  sentimentScore : ℚ
  finbertScore : ℚ
  source : String
  publishedAt : ℤ
  relevanceScore : ℚ
deriving DecidableEq

structure ModelMetrics where
  accuracy : ℚ
  mse : ℚ
  rmse : ℚ
  mae : ℚ
  r2Score : ℚ
deriving DecidableEq

structure SentimentWeights where
  positive : ℚ
  negative : ℚ
  neutral : ℚ
  overallSentiment : ℚ
deriving DecidableEq

inductive Trend where
  | bullish
  | bearish
  | sideways
deriving DecidableEq

structure ModelPredictionResult where
  symbol : String
  currentPrice : ℚ
  historical : List HistoricalData
  predictions : List LSTMPrediction
  modelMetrics : ModelMetrics
  sentimentWeights : SentimentWeights
  trend : Trend
  confidence : ℚ
  lastUpdated : ℤ
deriving DecidableEq

/-- Body of the successful POST /api/predict response. -/
structure ForecastResponse where
  predictions : List LSTMPrediction
  metrics : ModelMetrics
  trend : Trend
  confidence : ℚ
deriving DecidableEq

/-- Embedding of getMockStockData.  Math.random() is consumed in source
evaluation order: basePrice, change, volume, marketCap, peRatio,
dividendYield. -/
def getMockStockData (ticker : String) (r : ℕ → ℚ) : StockData :=
  let basePrice := r 0 * 200 + 50
  let change := (r 1 - 0.5) * 10
  { symbol := ticker.toUpper
    name := ticker.toUpper ++ " Corporation"
    currentPrice := basePrice
    change := change
    changePercent := change / basePrice * 100
    volume := ⌊r 2 * 100000000⌋
    marketCap := toString ⌊r 3 * 1000⌋ ++ "B"
    high52Week := basePrice * 1.3
    low52Week := basePrice * 0.7
    peRatio := r 4 * 30 + 10
    dividendYield := r 5 * 5 }

/-- One pass of the getMockHistoricalData loop.  The source iterates
`for (let i = 30; i >= 0; i--)`; here k = 30 - i counts the completed
iterations (so the date today - i equals today - 30 + k), fuel counts the
remaining iterations, and currentPrice is the running price.  Iteration k
consumes the five Math.random() values r (5k) .. r (5k+4) in source
order: variation, open offset, high pad, low pad, volume. -/
def mockHistAux (today : ℤ) (r : ℕ → ℚ) : ℕ → ℕ → ℚ → List HistoricalData
  | _, 0, _ => []
  | k, fuel + 1, currentPrice =>
      let variation := (r (5 * k) - 0.5) * 5
      let price := currentPrice + variation
      let open_ := price + (r (5 * k + 1) - 0.5) * 2
      let close := price
      let high := max open_ close + r (5 * k + 2) * 3
      let low := min open_ close - r (5 * k + 3) * 3
      { date := today - 30 + (k : ℤ)
        open_ := open_
        high := high
        low := low
        close := close
        volume := ⌊r (5 * k + 4) * 10000000⌋
        adjustedClose := close } :: mockHistAux today r (k + 1) fuel price

/-- Embedding of getMockHistoricalData: 31 bars (i = 30 down to 0),
starting from basePrice = 100. -/
def getMockHistoricalData (today : ℤ) (r : ℕ → ℚ) : List HistoricalData :=
  mockHistAux today r 0 31 100

/-- Embedding of getMockNewsData: a fixed list of three articles whose
headlines interpolate the ticker; publishedAt is 2, 5 and 8 hours before
now. -/
def getMockNewsData (ticker : String) (now : ℤ) : List NewsData :=
  [{ id := "1"
     headline := ticker ++ " Reports Strong Q4 Earnings, Beats Analyst Expectations"
     summary := "The company delivered impressive quarterly results with revenue growth exceeding market forecasts."
     content := "Full article content would be here..."
     sentiment := .positive
     sentimentScore := 0.78
     finbertScore := 0.82
     source := "Financial Times"
     publishedAt := now - 2 * 60 * 60 * 1000
     relevanceScore := 0.95 },
   { id := "2"
     headline := "Market Volatility Affects " ++ ticker ++ " Stock Performance"
     summary := "Recent market turbulence has impacted stock prices across the sector."
     content := "Full article content would be here..."
     sentiment := .neutral
     sentimentScore := -0.05
     finbertScore := -0.02
     source := "Reuters"
     publishedAt := now - 5 * 60 * 60 * 1000
     relevanceScore := 0.78 },
   { id := "3"
     headline := ticker ++ " Faces Regulatory Challenges in Key Markets"
     summary := "New regulatory requirements may impact operations in several international markets."
     content := "Full article content would be here..."
     sentiment := .negative
     sentimentScore := -0.42
     finbertScore := -0.38
     source := "Bloomberg"
     publishedAt := now - 8 * 60 * 60 * 1000
     relevanceScore := 0.85 }]

/-- Iteration i (1-based) of the getMockPredictionResult loop; consumes
r (2(i-1)) for the variation and r (2(i-1)+1) for the confidence. -/
def mockPrediction (today : ℤ) (r : ℕ → ℚ) (i : ℕ) : LSTMPrediction :=
  let variation := (r (2 * (i - 1)) - 0.5) * 10
  let predictedPrice := 150 + variation
  { date := today + (i : ℤ)
    predictedPrice := predictedPrice
    confidence := r (2 * (i - 1) + 1) * 0.3 + 0.7
    upperBound := predictedPrice * 1.05
    lowerBound := predictedPrice * 0.95 }

/-- Embedding of getMockPredictionResult.  currentPrice = 150; the loop
for i = 1..3 consumes r 0 .. r 5, after which getMockHistoricalData
consumes the rest of the stream. -/
def getMockPredictionResult (ticker : String) (today : ℤ) (r : ℕ → ℚ) :
    ModelPredictionResult :=
  { symbol := ticker
    currentPrice := 150
    historical := getMockHistoricalData today (fun i => r (6 + i))
    predictions := [mockPrediction today r 1, mockPrediction today r 2, mockPrediction today r 3]
    modelMetrics := { accuracy := 0.85, mse := 2.34, rmse := 1.53, mae := 1.21, r2Score := 0.78 }
    sentimentWeights := { positive := 0.4, negative := 0.3, neutral := 0.3, overallSentiment := 0.15 }
    trend := .bullish
    confidence := 0.82
    lastUpdated := today }

/-- getStockData: the try block awaits the quote fetch, whose outcome is
the argument up; a rejection propagates. -/
def getStockDataTry (up : Except Unit StockData) : Except Unit StockData := up

/-- getStockData with its catch handler: any upstream failure is replaced
by getMockStockData. -/
def getStockData (ticker : String) (up : Except Unit StockData) (r : ℕ → ℚ) :
    StockData :=
  match getStockDataTry up with
  | .ok data => data
  | .error _ => getMockStockData ticker r

/-- getHistoricalData with its catch handler. -/
def getHistoricalData (ticker : String) (today : ℤ)
    (up : Except Unit (List HistoricalData)) (r : ℕ → ℚ) : List HistoricalData :=
  match up with
  | .ok data => data
  | .error _ => getMockHistoricalData today r

/-- getNewsWithSentiment with its catch handler. -/
def getNewsWithSentiment (ticker : String) (now : ℤ)
    (up : Except Unit (List NewsData)) : List NewsData :=
  match up with
  | .ok data => data
  | .error _ => getMockNewsData ticker now

/-- Accumulator of the calculateSentimentWeights forEach loop. -/
structure SWAcc where
  positiveCount : ℕ
  negativeCount : ℕ
  neutralCount : ℕ
  totalSentimentScore : ℚ

/-- One forEach step: the switch bumps the counter of the article label,
then totalSentimentScore accumulates the finbertScore. -/
def swStep (acc : SWAcc) (news : NewsData) : SWAcc :=
  let acc2 :=
    match news.sentiment with
    | .positive => { acc with positiveCount := acc.positiveCount + 1 }
    | .negative => { acc with negativeCount := acc.negativeCount + 1 }
    | .neutral => { acc with neutralCount := acc.neutralCount + 1 }
  { acc2 with totalSentimentScore := acc2.totalSentimentScore + news.finbertScore }

/-- Embedding of calculateSentimentWeights. -/
def calculateSentimentWeights (newsData : List NewsData) : SentimentWeights :=
  if newsData.length = 0 then
    { positive := 0.33, negative := 0.33, neutral := 0.34, overallSentiment := 0 }
  else
    let acc := newsData.foldl swStep ⟨0, 0, 0, 0⟩
    let total : ℚ := newsData.length
    { positive := acc.positiveCount / total
      negative := acc.negativeCount / total
      neutral := acc.neutralCount / total
      overallSentiment := acc.totalSentimentScore / total }

/-- Try block of generatePredictions: the three data fetches have already
resolved (they never reject; their values are the first three arguments),
the sentiment weights are computed locally, and the forecast POST outcome
is the argument forecast; its rejection propagates. -/
def generatePredictionsTry (ticker : String) (today : ℤ) (stockData : StockData)
    (historicalData : List HistoricalData) (newsData : List NewsData)
    (forecast : Except Unit ForecastResponse) : Except Unit ModelPredictionResult :=
  let sentimentWeights := calculateSentimentWeights newsData
  match forecast with
  | .ok p =>
      .ok { symbol := ticker
            currentPrice := stockData.currentPrice
            historical := historicalData
            predictions := p.predictions
            modelMetrics := p.metrics
            sentimentWeights := sentimentWeights
            trend := p.trend
            confidence := p.confidence
            lastUpdated := today }
  | .error e => .error e

/-- generatePredictions with its catch handler: a forecast failure is
replaced by the fully synthetic getMockPredictionResult. -/
def generatePredictions (ticker : String) (today : ℤ) (stockData : StockData)
    (historicalData : List HistoricalData) (newsData : List NewsData)
    (forecast : Except Unit ForecastResponse) (r : ℕ → ℚ) : ModelPredictionResult :=
  match generatePredictionsTry ticker today stockData historicalData newsData forecast with
  | .ok res => res
  | .error _ => getMockPredictionResult ticker today r

/-! ## Orchestrator (src/services/mockStockService.ts) -/

structure StockInfo where
  symbol : String
  name : String
  currentPrice : ℚ
  change : ℚ
  volume : ℤ
  marketCap : String
deriving DecidableEq

structure PredictionData where
  historical : List ℚ
  predictions : List ℚ
  dates : List ℤ
  trend : String
  confidence : ℤ
deriving DecidableEq

structure NewsItem where
  id : String
  headline : String
  summary : String
  sentiment : Sentiment
  sentimentScore : ℚ
  source : String
  publishedAt : ℤ
deriving DecidableEq

/-- The polymorphic payload stored in the single any-typed cache map. -/
inductive CacheData where
  | stock (info : StockInfo)
  | predictions (data : PredictionData)
  | news (items : List NewsItem)
deriving DecidableEq

structure CacheEntry where
  data : CacheData
  timestamp : ℤ
deriving DecidableEq

/-- The private cache map of MockStockService. -/
def Cache : Type := String → Option CacheEntry

/-- cacheTimeout = 5 * 60 * 1000 milliseconds. -/
def cacheTimeout : ℤ := 5 * 60 * 1000

/-- The read pattern the service inlines at the top of each operation:
`const cached = this.cache.get(cacheKey);
 if (cached && Date.now() - cached.timestamp < this.cacheTimeout)
   return cached.data;` -/
def cacheGet (cache : Cache) (key : String) (now : ℤ) : Option CacheData :=
  match cache key with
  | some cached => if now - cached.timestamp < cacheTimeout then some cached.data else none
  | none => none

/-- The write pattern of the service:
`this.cache.set(cacheKey, { data, timestamp: Date.now() })`. -/
def cacheSet (cache : Cache) (key : String) (data : CacheData) (now : ℤ) : Cache :=
  fun k => if k = key then some { data := data, timestamp := now } else cache k

/-- clearCache: `this.cache.clear()`. -/
def clearCache : Cache := fun _ => none

/-- Fresh cache lookup for getStockInfo under key "stock_" ++ ticker.  Only
getStockInfo ever stores under this key, and it stores a stock payload, so
the non-stock branch is unreachable; it is mapped to a miss. -/
def lookupStock (cache : Cache) (now : ℤ) (ticker : String) : Option StockInfo :=
  match cacheGet cache ("stock_" ++ ticker) now with
  | some (.stock info) => some info
  | _ => none

/-- Fresh cache lookup for getPredictions under key "predictions_" ++ ticker. -/
def lookupPredictions (cache : Cache) (now : ℤ) (ticker : String) : Option PredictionData :=
  match cacheGet cache ("predictions_" ++ ticker) now with
  | some (.predictions data) => some data
  | _ => none

/-- Fresh cache lookup for getNews under key "news_" ++ ticker. -/
def lookupNews (cache : Cache) (now : ℤ) (ticker : String) : Option (List NewsItem) :=
  match cacheGet cache ("news_" ++ ticker) now with
  | some (.news items) => some items
  | _ => none

/-- Result of one orchestrator operation: the value handed to the UI, the
cache after the call, and whether an underlying data-provider call was
issued (the await of the lstmModelService method). -/
structure OpResult (α : Type) where
  value : α
  cache : Cache
  fetched : Bool

/-- Try block of getStockInfo: cache check, then the awaited
lstmModelService.getStockData outcome up (a rejection propagates), field
projection into StockInfo, cache write. -/
def getStockInfoTry (ticker : String) (cache : Cache) (now : ℤ)
    (up : Except Unit StockData) : Except Unit (OpResult StockInfo) :=
  match lookupStock cache now ticker with
  | some info => .ok ⟨info, cache, false⟩
  | none =>
      match up with
      | .ok stockData =>
          let stockInfo : StockInfo :=
            { symbol := stockData.symbol
              name := stockData.name
              currentPrice := stockData.currentPrice
              change := stockData.change
              volume := stockData.volume
              marketCap := stockData.marketCap }
          .ok ⟨stockInfo, cacheSet cache ("stock_" ++ ticker) (.stock stockInfo) now, true⟩
      | .error e => .error e

/-- getStockInfo with its catch handler: an error is replaced by
getFallbackStockInfo and nothing is cached. -/
def getFallbackStockInfo (ticker : String) (r : ℕ → ℚ) : StockInfo :=
  let basePrice := r 0 * 200 + 50
  let change := (r 1 - 0.5) * 10
  { symbol := ticker.toUpper
    name := ticker.toUpper ++ " Corporation"
    currentPrice := basePrice
    change := change
    volume := ⌊r 2 * 100000000⌋
    marketCap := toString ⌊r 3 * 1000⌋ ++ "B" }

def getStockInfo (ticker : String) (cache : Cache) (now : ℤ)
    (up : Except Unit StockData) (r : ℕ → ℚ) : OpResult StockInfo :=
  match getStockInfoTry ticker cache now up with
  | .ok res => res
  | .error _ => ⟨getFallbackStockInfo ticker r, cache, true⟩

/-- Embedding of getFallbackPredictions.  basePrice = 100; the historical
loop consumes r 0 .. r 3, each prediction iteration consumes a trend
random and a noise random (r 4 .. r 9), the confidence consumes r 10.
Dates are the last seven days ending today. -/
def getFallbackPredictions (ticker : String) (today : ℤ) (r : ℕ → ℚ) :
    PredictionData :=
  let basePrice : ℚ := 100
  let historical :=
    [basePrice + (r 0 - 0.5) * 10, basePrice + (r 1 - 0.5) * 10,
     basePrice + (r 2 - 0.5) * 10, basePrice + (r 3 - 0.5) * 10]
  let p1 := (basePrice + (r 3 - 0.5) * 10) * (if r 4 > 0.5 then 1.02 else 0.98) + (r 5 - 0.5) * 5
  let p2 := p1 * (if r 6 > 0.5 then 1.02 else 0.98) + (r 7 - 0.5) * 5
  let p3 := p2 * (if r 8 > 0.5 then 1.02 else 0.98) + (r 9 - 0.5) * 5
  { historical := historical
    predictions := [p1, p2, p3]
    dates := [today - 6, today - 5, today - 4, today - 3, today - 2, today - 1, today]
    trend := if p3 > p1 then "Bullish" else "Bearish"
    confidence := ⌊r 10 * 20⌋ + 75 }

/-- Try block of getPredictions: cache check, awaited
lstmModelService.generatePredictions outcome up, transformation for the
UI (last four closes, predicted prices, seven date labels around today,
display trend, percentage confidence), cache write. -/
def getPredictionsTry (ticker : String) (cache : Cache) (now today : ℤ)
    (up : Except Unit ModelPredictionResult) : Except Unit (OpResult PredictionData) :=
  match lookupPredictions cache now ticker with
  | some data => .ok ⟨data, cache, false⟩
  | none =>
      match up with
      | .ok modelResult =>
          let historical :=
            (modelResult.historical.drop (modelResult.historical.length - 4)).map
              (fun h => h.close)
          let predictions := modelResult.predictions.map (fun p => p.predictedPrice)
          let dates : List ℤ :=
            [today - 3, today - 2, today - 1, today, today + 1, today + 2, today + 3]
          let predictionData : PredictionData :=
            { historical := historical
              predictions := predictions
              dates := dates
              trend :=
                match modelResult.trend with
                | .bullish => "Bullish"
                | .bearish => "Bearish"
                | .sideways => "Sideways"
              confidence := ⌊modelResult.confidence * 100⌋ }
          .ok ⟨predictionData,
               cacheSet cache ("predictions_" ++ ticker) (.predictions predictionData) now,
               true⟩
      | .error e => .error e

def getPredictions (ticker : String) (cache : Cache) (now today : ℤ)
    (up : Except Unit ModelPredictionResult) (r : ℕ → ℚ) : OpResult PredictionData :=
  match getPredictionsTry ticker cache now today up with
  | .ok res => res
  | .error _ => ⟨getFallbackPredictions ticker today r, cache, true⟩

/-- Embedding of getFallbackNews: three fixed items; the displayed
sentimentScore constants of the source fallback. -/
def getFallbackNews (ticker : String) (now : ℤ) : List NewsItem :=
  [{ id := "1"
     headline := ticker ++ " Reports Strong Q4 Earnings, Beats Analyst Expectations"
     summary := "The company delivered impressive quarterly results with revenue growth exceeding market forecasts. Strong performance across all business segments."
     sentiment := .positive
     sentimentScore := 0.78
     source := "Financial Times"
     publishedAt := now - 2 * 60 * 60 * 1000 },
   { id := "2"
     headline := "Market Volatility Affects " ++ ticker ++ " Stock Performance"
     summary := "Recent market turbulence has impacted stock prices across the sector. Analysts remain cautiously optimistic about long-term prospects."
     sentiment := .neutral
     sentimentScore := -0.05
     source := "Reuters"
     publishedAt := now - 5 * 60 * 60 * 1000 },
   { id := "3"
     headline := ticker ++ " Faces Regulatory Challenges in Key Markets"
     summary := "New regulatory requirements may impact operations in several international markets. Company working on compliance strategies."
     sentiment := .negative
     sentimentScore := -0.42
     source := "Bloomberg"
     publishedAt := now - 8 * 60 * 60 * 1000 }]

/-- Try block of getNews: cache check, awaited
lstmModelService.getNewsWithSentiment outcome up, per-article mapping to
the UI shape with finbertScore as the displayed sentimentScore, cache
write. -/
def getNewsTry (ticker : String) (cache : Cache) (now : ℤ)
    (up : Except Unit (List NewsData)) : Except Unit (OpResult (List NewsItem)) :=
  match lookupNews cache now ticker with
  | some items => .ok ⟨items, cache, false⟩
  | none =>
      match up with
      | .ok newsData =>
          let newsItems : List NewsItem :=
            newsData.map (fun news =>
              { id := news.id
                headline := news.headline
                summary := news.summary
                sentiment := news.sentiment
                sentimentScore := news.finbertScore
                source := news.source
                publishedAt := news.publishedAt })
          .ok ⟨newsItems, cacheSet cache ("news_" ++ ticker) (.news newsItems) now, true⟩
      | .error e => .error e

def getNews (ticker : String) (cache : Cache) (now : ℤ)
    (up : Except Unit (List NewsData)) (r : ℕ → ℚ) : OpResult (List NewsItem) :=
  match getNewsTry ticker cache now up with
  | .ok res => res
  | .error _ => ⟨getFallbackNews ticker now, cache, true⟩

/-! ## Concrete objects used by the witnesses -/

/-- Constant Math.random() stream with value one half. -/
def halfRand : ℕ → ℚ := fun _ => 0.5

/-- The cache map in its initial (empty) state. -/
def emptyCache : Cache := fun _ => none

def sampleStockData : StockData :=
  { symbol := "AAPL"
    name := "Apple Inc."
    currentPrice := 150
    change := 2
    changePercent := 1.35
    volume := 1000000
    marketCap := "2400B"
    high52Week := 199
    low52Week := 124
    peRatio := 29
    dividendYield := 0.5 }

def sampleModelResult : ModelPredictionResult :=
  getMockPredictionResult "AAPL" 0 halfRand

def sampleNewsData : List NewsData := getMockNewsData "AAPL" 0

def sampleCachePayload : CacheData := .news (getFallbackNews "AAPL" 0)

/-! ## Helper lemmas -/

theorem ifErr_eq_nil (c : Prop) [Decidable c] (m : String) :
    ((if c then [m] else []) = []) ↔ ¬c := by
  split <;> simp_all

theorem ifErr_length (c : Prop) [Decidable c] (m : String) :
    (if c then [m] else []).length = if c then 1 else 0 := by
  split <;> rfl

theorem foldl_swStep_pos (l : List NewsData) : ∀ acc : SWAcc,
    (l.foldl swStep acc).positiveCount =
      acc.positiveCount + l.countP (fun n => decide (n.sentiment = Sentiment.positive)) := by
  induction l with
  | nil => intro acc; simp
  | cons head tail ih =>
      intro acc
      simp only [List.foldl_cons, ih, List.countP_cons]
      cases h : head.sentiment <;> simp [swStep, h] <;> omega

theorem foldl_swStep_neg (l : List NewsData) : ∀ acc : SWAcc,
    (l.foldl swStep acc).negativeCount =
      acc.negativeCount + l.countP (fun n => decide (n.sentiment = Sentiment.negative)) := by
  induction l with
  | nil => intro acc; simp
  | cons head tail ih =>
      intro acc
      simp only [List.foldl_cons, ih, List.countP_cons]
      cases h : head.sentiment <;> simp [swStep, h] <;> omega

theorem foldl_swStep_neu (l : List NewsData) : ∀ acc : SWAcc,
    (l.foldl swStep acc).neutralCount =
      acc.neutralCount + l.countP (fun n => decide (n.sentiment = Sentiment.neutral)) := by
  induction l with
  | nil => intro acc; simp
  | cons head tail ih =>
      intro acc
      simp only [List.foldl_cons, ih, List.countP_cons]
      cases h : head.sentiment <;> simp [swStep, h] <;> omega

theorem foldl_swStep_score (l : List NewsData) : ∀ acc : SWAcc,
    (l.foldl swStep acc).totalSentimentScore =
      acc.totalSentimentScore + (l.map (fun n => n.finbertScore)).sum := by
  induction l with
  | nil => intro acc; simp
  | cons head tail ih =>
      intro acc
      simp only [List.foldl_cons, ih, List.map_cons, List.sum_cons]
      cases h : head.sentiment <;> simp [swStep, h] <;> ring

theorem countP_sentiment_total (l : List NewsData) :
    l.countP (fun n => decide (n.sentiment = Sentiment.positive)) +
      l.countP (fun n => decide (n.sentiment = Sentiment.negative)) +
      l.countP (fun n => decide (n.sentiment = Sentiment.neutral)) = l.length := by
  induction l with
  | nil => rfl
  | cons a t ih =>
      simp only [List.countP_cons, List.length_cons]
      cases h : a.sentiment <;> simp [h] <;> omega

/-! ## Claim theorems -/

/-- C8: validateModelConfig is a synchronous total function returning the
list of violation messages: it returns the empty list exactly when all
eleven range constraints hold, and its length is the number of violated
constraints (one message per violation). -/
theorem validateModelConfig_spec (config : ModelConfig) :
    (validateModelConfig config = [] ↔
      (1 ≤ config.lstm.sequenceLength ∧ 1 ≤ config.lstm.hiddenUnits ∧
       1 ≤ config.lstm.layers ∧ (0 ≤ config.lstm.dropout ∧ config.lstm.dropout < 1) ∧
       1 ≤ config.training.epochs ∧ 1 ≤ config.training.batchSize ∧
       0 < config.training.learningRate ∧
       (0 ≤ config.training.validationSplit ∧ config.training.validationSplit < 1) ∧
       config.data.features ≠ [] ∧
       (0 ≤ config.data.testSize ∧ config.data.testSize < 1) ∧
       1 ≤ config.data.predictionDays)) ∧
    (validateModelConfig config).length =
      ((if config.lstm.sequenceLength < 1 then 1 else 0) +
       (if config.lstm.hiddenUnits < 1 then 1 else 0) +
       (if config.lstm.layers < 1 then 1 else 0) +
       (if config.lstm.dropout < 0 ∨ config.lstm.dropout ≥ 1 then 1 else 0) +
       (if config.training.epochs < 1 then 1 else 0) +
       (if config.training.batchSize < 1 then 1 else 0) +
       (if config.training.learningRate ≤ 0 then 1 else 0) +
       (if config.training.validationSplit < 0 ∨ config.training.validationSplit ≥ 1 then 1 else 0) +
       (if config.data.features.length = 0 then 1 else 0) +
       (if config.data.testSize < 0 ∨ config.data.testSize ≥ 1 then 1 else 0) +
       (if config.data.predictionDays < 1 then 1 else 0)) := by
  constructor
  · simp only [validateModelConfig, List.append_eq_nil, ifErr_eq_nil, not_lt, not_or,
      not_le, List.length_eq_zero, ne_eq]
    tauto
  · simp only [validateModelConfig, List.length_append, ifErr_length]

/-- Witness for C8: the default configuration satisfies every constraint,
so validation returns no messages. -/
theorem validateModelConfig_spec_witness : validateModelConfig defaultModelConfig = [] :=
  (validateModelConfig_spec defaultModelConfig).1.mpr
    (by refine ⟨?_, ?_, ?_, ?_, ?_, ?_, ?_, ?_, ?_, ?_, ?_⟩ <;>
      first
        | exact List.cons_ne_nil _ _
        | norm_num [defaultModelConfig])

/-- C9: getModelConfig copies defaultModelConfig only shallowly: the
returned config references the very same nested training/lstm/news/api
objects as defaultModelConfig, so getModelConfig development or testing
mutates defaultModelConfig in place; after getModelConfig testing,
defaultModelConfig.training.epochs is 5, and a subsequent
getModelConfig production resolves to 5 epochs instead of the documented
default of 100. -/
theorem getModelConfig_shallow_copy_mutates_default :
    ((getModelConfig .testing initialConfigHeap).1.training = defaultModelConfigRef.training ∧
     (getModelConfig .testing initialConfigHeap).1.lstm = defaultModelConfigRef.lstm ∧
     (getModelConfig .testing initialConfigHeap).1.news = defaultModelConfigRef.news ∧
     (getModelConfig .testing initialConfigHeap).1.api = defaultModelConfigRef.api) ∧
    ((getModelConfig .testing initialConfigHeap).2.trainingAt
        defaultModelConfigRef.training).epochs = 5 ∧
    ((getModelConfig .development initialConfigHeap).2.trainingAt
        defaultModelConfigRef.training).epochs = 10 ∧
    (resolveConfig (getModelConfig .production (getModelConfig .testing initialConfigHeap).2).2
        (getModelConfig .production (getModelConfig .testing initialConfigHeap).2).1).training.epochs = 5 ∧
    defaultModelConfig.training.epochs = 100 ∧ ((5 : ℚ) ≠ 100) :=
  ⟨⟨rfl, rfl, rfl, rfl⟩, rfl, rfl, rfl, rfl, by norm_num⟩

/-- C3: the cache returns a stored payload only while now - timestamp is
strictly below the TTL: a get at the set time returns the stored value, a
get at or after the TTL elapsed is a miss, and any successful get comes
from an entry whose age is strictly below the TTL. -/
theorem cache_ttl_spec (cache : Cache) (key : String) (data : CacheData) (t now : ℤ) :
    cacheGet (cacheSet cache key data t) key t = some data ∧
    (cacheTimeout ≤ now - t → cacheGet (cacheSet cache key data t) key now = none) ∧
    (∀ v, cacheGet cache key now = some v →
      ∃ e, cache key = some e ∧ e.data = v ∧ now - e.timestamp < cacheTimeout) := by
  refine ⟨?_, ?_, ?_⟩
  · simp [cacheGet, cacheSet, cacheTimeout]
  · intro h
    have hmiss : ¬(now - t < cacheTimeout) := not_lt.mpr h
    simp [cacheGet, cacheSet, hmiss]
  · intro v hv
    unfold cacheGet at hv
    split at hv
    · split at hv
      · next cached heq hfresh =>
          exact ⟨cached, heq, Option.some.inj hv, hfresh⟩
      · cases hv
    · cases hv

/-- Witness for C3 at a concrete key, payload and pair of times. -/
theorem cache_ttl_spec_witness :
    cacheGet (cacheSet emptyCache "stock_AAPL" sampleCachePayload 0) "stock_AAPL" 0 =
      some sampleCachePayload ∧
    cacheGet (cacheSet emptyCache "stock_AAPL" sampleCachePayload 0) "stock_AAPL" 300000 =
      none :=
  ⟨(cache_ttl_spec emptyCache "stock_AAPL" sampleCachePayload 0 0).1,
   (cache_ttl_spec emptyCache "stock_AAPL" sampleCachePayload 0 300000).2.1 (by decide)⟩

/-- C2: calculateSentimentWeights returns the fixed neutral prior on the
empty list; on a non-empty list each weight is the label count divided by
the article count, overallSentiment is the arithmetic mean of the
finbertScore values, and the three weights sum to exactly 1. -/
theorem calculateSentimentWeights_spec :
    calculateSentimentWeights [] =
      { positive := 0.33, negative := 0.33, neutral := 0.34, overallSentiment := 0 } ∧
    ∀ newsData : List NewsData, newsData ≠ [] →
      (calculateSentimentWeights newsData).positive =
        (newsData.countP (fun n => decide (n.sentiment = Sentiment.positive)) : ℚ) /
          newsData.length ∧
      (calculateSentimentWeights newsData).negative =
        (newsData.countP (fun n => decide (n.sentiment = Sentiment.negative)) : ℚ) /
          newsData.length ∧
      (calculateSentimentWeights newsData).neutral =
        (newsData.countP (fun n => decide (n.sentiment = Sentiment.neutral)) : ℚ) /
          newsData.length ∧
      (calculateSentimentWeights newsData).overallSentiment =
        (newsData.map (fun n => n.finbertScore)).sum / newsData.length ∧
      (calculateSentimentWeights newsData).positive +
        (calculateSentimentWeights newsData).negative +
        (calculateSentimentWeights newsData).neutral = 1 := by
  refine ⟨rfl, ?_⟩
  intro l hl
  have hlen : l.length ≠ 0 := fun h => hl (List.length_eq_zero.mp h)
  have hlenQ : (l.length : ℚ) ≠ 0 := Nat.cast_ne_zero.mpr hlen
  have hpos : (calculateSentimentWeights l).positive =
      (l.countP (fun n => decide (n.sentiment = Sentiment.positive)) : ℚ) / l.length := by
    simp [calculateSentimentWeights, foldl_swStep_pos, hl]
  have hneg : (calculateSentimentWeights l).negative =
      (l.countP (fun n => decide (n.sentiment = Sentiment.negative)) : ℚ) / l.length := by
    simp [calculateSentimentWeights, foldl_swStep_neg, hl]
  have hneu : (calculateSentimentWeights l).neutral =
      (l.countP (fun n => decide (n.sentiment = Sentiment.neutral)) : ℚ) / l.length := by
    simp [calculateSentimentWeights, foldl_swStep_neu, hl]
  refine ⟨hpos, hneg, hneu, ?_, ?_⟩
  · simp [calculateSentimentWeights, foldl_swStep_score, hl]
  · rw [hpos, hneg, hneu, div_add_div_same, div_add_div_same,
      ← Nat.cast_add, ← Nat.cast_add, countP_sentiment_total, div_self hlenQ]

/-- Witness for C2 on the three-article mock news list. -/
theorem calculateSentimentWeights_spec_witness :
    (calculateSentimentWeights sampleNewsData).positive +
      (calculateSentimentWeights sampleNewsData).negative +
      (calculateSentimentWeights sampleNewsData).neutral = 1 ∧
    (calculateSentimentWeights sampleNewsData).overallSentiment =
      (sampleNewsData.map (fun n => n.finbertScore)).sum / sampleNewsData.length :=
  have h := calculateSentimentWeights_spec.2 sampleNewsData (by decide)
  ⟨h.2.2.2.2, h.2.2.2.1⟩

theorem mockHistAux_length (today : ℤ) (r : ℕ → ℚ) : ∀ (fuel k : ℕ) (p : ℚ),
    (mockHistAux today r k fuel p).length = fuel := by
  intro fuel
  induction fuel with
  | zero => intro k p; rfl
  | succ n ih => intro k p; simp [mockHistAux, ih]

theorem mockHistAux_chain (today : ℤ) (r : ℕ → ℚ) : ∀ (fuel k : ℕ) (p : ℚ),
    List.Chain' (fun a b => a.date < b.date) (mockHistAux today r k fuel p) := by
  intro fuel
  induction fuel with
  | zero => intro k p; exact List.chain'_nil
  | succ n ih =>
      intro k p
      simp only [mockHistAux]
      refine List.chain'_cons'.mpr ⟨?_, ih (k + 1) _⟩
      intro y hy
      cases n with
      | zero => simp [mockHistAux] at hy
      | succ m =>
          simp only [mockHistAux, List.head?_cons, Option.mem_def, Option.some.injEq] at hy
          subst hy
          simp only
          push_cast
          omega

theorem mockHistAux_bars (today : ℤ) (r : ℕ → ℚ) (hr : ∀ i, 0 ≤ r i) :
    ∀ (fuel k : ℕ) (p : ℚ) (b : HistoricalData), b ∈ mockHistAux today r k fuel p →
      max b.open_ b.close ≤ b.high ∧ b.low ≤ min b.open_ b.close := by
  intro fuel
  induction fuel with
  | zero => intro k p b hb; simp [mockHistAux] at hb
  | succ n ih =>
      intro k p b hb
      simp only [mockHistAux, List.mem_cons] at hb
      rcases hb with hb | hb
      · subst hb
        have h2 : (0 : ℚ) ≤ r (5 * k + 2) * 3 :=
          mul_nonneg (hr (5 * k + 2)) (by norm_num)
        have h3 : (0 : ℚ) ≤ r (5 * k + 3) * 3 :=
          mul_nonneg (hr (5 * k + 3)) (by norm_num)
        constructor
        · simp only
          linarith
        · simp only
          linarith
      · exact ih (k + 1) _ b hb

/-- C6: the synthetic historical fallback returns 31 bars (hence at least
31), their dates are strictly ascending, and every bar satisfies
high ≥ max(open, close) and low ≤ min(open, close). -/
theorem getMockHistoricalData_spec (today : ℤ) (r : ℕ → ℚ) (hr : RandOk r) :
    (getMockHistoricalData today r).length = 31 ∧
    List.Chain' (fun a b => a.date < b.date) (getMockHistoricalData today r) ∧
    ∀ b ∈ getMockHistoricalData today r,
      max b.open_ b.close ≤ b.high ∧ b.low ≤ min b.open_ b.close :=
  ⟨mockHistAux_length today r 31 0 100,
   mockHistAux_chain today r 31 0 100,
   fun b hb => mockHistAux_bars today r (fun i => (hr i).1) 31 0 100 b hb⟩

/-- Witness for C6 on the constant one-half random stream. -/
theorem getMockHistoricalData_spec_witness :
    (getMockHistoricalData 0 halfRand).length = 31 :=
  (getMockHistoricalData_spec 0 halfRand (fun i => by norm_num [halfRand])).1

/-- C7: every synthetic fallback quote (both the provider-level
getMockStockData and the orchestrator-level getFallbackStockInfo) has a
positive current price and non-negative volume, its symbol is the
uppercased ticker with the display name derived from it, and all the
remaining fields are independent of the ticker string. -/
theorem synthetic_quote_spec (ticker : String) (r : ℕ → ℚ) (hr : RandOk r) :
    0 < (getMockStockData ticker r).currentPrice ∧
    0 ≤ (getMockStockData ticker r).volume ∧
    (getMockStockData ticker r).symbol = ticker.toUpper ∧
    (getMockStockData ticker r).name = ticker.toUpper ++ " Corporation" ∧
    (∀ t2 : String, getMockStockData ticker r =
      { getMockStockData t2 r with
          symbol := ticker.toUpper, name := ticker.toUpper ++ " Corporation" }) ∧
    0 < (getFallbackStockInfo ticker r).currentPrice ∧
    0 ≤ (getFallbackStockInfo ticker r).volume ∧
    (getFallbackStockInfo ticker r).symbol = ticker.toUpper ∧
    (getFallbackStockInfo ticker r).name = ticker.toUpper ++ " Corporation" ∧
    (∀ t2 : String, getFallbackStockInfo ticker r =
      { getFallbackStockInfo t2 r with
          symbol := ticker.toUpper, name := ticker.toUpper ++ " Corporation" }) := by
  have hprice : (0 : ℚ) < r 0 * 200 + 50 := by
    have := (hr 0).1
    nlinarith
  have hvol : (0 : ℤ) ≤ ⌊r 2 * 100000000⌋ := by
    refine Int.le_floor.mpr ?_
    push_cast
    exact mul_nonneg (hr 2).1 (by norm_num)
  exact ⟨hprice, hvol, rfl, rfl, fun t2 => rfl, hprice, hvol, rfl, rfl, fun t2 => rfl⟩

/-- Witness for C7 at the ticker aapl and the constant one-half stream. -/
theorem synthetic_quote_spec_witness :
    0 < (getMockStockData "aapl" halfRand).currentPrice ∧
    (getMockStockData "aapl" halfRand).symbol = "aapl".toUpper ∧
    0 < (getFallbackStockInfo "aapl" halfRand).currentPrice :=
  have h := synthetic_quote_spec "aapl" halfRand (fun i => by norm_num [halfRand])
  ⟨h.1, h.2.2.1, h.2.2.2.2.2.1⟩

theorem mockPrediction_price_bounds (x : ℚ) (hx : 0 ≤ x) :
    (150 + (x - 0.5) * 10) * 0.95 ≤ 150 + (x - 0.5) * 10 ∧
    150 + (x - 0.5) * 10 ≤ (150 + (x - 0.5) * 10) * 1.05 := by
  constructor <;> nlinarith

/-- C4: a rejected forecast call propagates out of the try block of
generatePredictions, the catch substitutes the fully synthetic
getMockPredictionResult (so the operation resolves), the synthetic result
has exactly 3 forecast points, every point satisfies
lowerBound ≤ predictedPrice ≤ upperBound, and the orchestrator projection
of that substituted result still carries 3 forecast points. -/
theorem forecast_failure_fallback_spec (ticker : String) (today : ℤ)
    (stockData : StockData) (historicalData : List HistoricalData)
    (newsData : List NewsData) (r : ℕ → ℚ) (hr : RandOk r) :
    generatePredictionsTry ticker today stockData historicalData newsData (.error ()) =
      .error () ∧
    generatePredictions ticker today stockData historicalData newsData (.error ()) r =
      getMockPredictionResult ticker today r ∧
    (getMockPredictionResult ticker today r).predictions.length = 3 ∧
    (∀ p ∈ (getMockPredictionResult ticker today r).predictions,
      p.lowerBound ≤ p.predictedPrice ∧ p.predictedPrice ≤ p.upperBound) ∧
    (∀ (cache : Cache) (now : ℤ) (r2 : ℕ → ℚ),
      lookupPredictions cache now ticker = none →
      (getPredictions ticker cache now today
        (.ok (generatePredictions ticker today stockData historicalData newsData
          (.error ()) r)) r2).value.predictions.length = 3) := by
  refine ⟨rfl, rfl, rfl, ?_, ?_⟩
  · intro p hp
    simp only [getMockPredictionResult, List.mem_cons, List.not_mem_nil, or_false] at hp
    rcases hp with hp | hp | hp <;> subst hp <;>
      exact mockPrediction_price_bounds _ (hr _).1
  · intro cache now r2 hmiss
    simp [getPredictions, getPredictionsTry, hmiss]
    rfl

/-- Witness for C4 on concrete inputs with the constant one-half stream. -/
theorem forecast_failure_fallback_spec_witness :
    (getMockPredictionResult "AAPL" 0 halfRand).predictions.length = 3 ∧
    (getPredictions "AAPL" emptyCache 0 0
      (.ok (generatePredictions "AAPL" 0 sampleStockData [] [] (.error ()) halfRand))
      halfRand).value.predictions.length = 3 :=
  have h := forecast_failure_fallback_spec "AAPL" 0 sampleStockData [] [] halfRand
    (fun i => by norm_num [halfRand])
  ⟨h.2.2.1, h.2.2.2.2 emptyCache 0 halfRand rfl⟩

theorem lookupStock_set (t1 t2 : ℤ) (hfresh : t2 - t1 < cacheTimeout) (cache : Cache)
    (ticker : String) (info : StockInfo) :
    lookupStock (cacheSet cache ("stock_" ++ ticker) (.stock info) t1) t2 ticker =
      some info := by
  simp [lookupStock, cacheGet, cacheSet, hfresh]

theorem lookupPredictions_set (t1 t2 : ℤ) (hfresh : t2 - t1 < cacheTimeout) (cache : Cache)
    (ticker : String) (data : PredictionData) :
    lookupPredictions (cacheSet cache ("predictions_" ++ ticker) (.predictions data) t1)
      t2 ticker = some data := by
  simp [lookupPredictions, cacheGet, cacheSet, hfresh]

theorem lookupNews_set (t1 t2 : ℤ) (hfresh : t2 - t1 < cacheTimeout) (cache : Cache)
    (ticker : String) (items : List NewsItem) :
    lookupNews (cacheSet cache ("news_" ++ ticker) (.news items) t1) t2 ticker =
      some items := by
  simp [lookupNews, cacheGet, cacheSet, hfresh]

theorem lookupStock_none_mono (cache : Cache) (ticker : String) (t1 t2 : ℤ)
    (hle : t1 ≤ t2) (h : lookupStock cache t1 ticker = none) :
    lookupStock cache t2 ticker = none := by
  unfold lookupStock cacheGet at h ⊢
  cases hc : cache ("stock_" ++ ticker) with
  | none => simp
  | some e =>
      simp only [hc] at h ⊢
      by_cases h2 : t2 - e.timestamp < cacheTimeout
      · have h1 : t1 - e.timestamp < cacheTimeout := by linarith
        rw [if_pos h1] at h
        rw [if_pos h2]
        exact h
      · rw [if_neg h2]

theorem lookupPredictions_none_mono (cache : Cache) (ticker : String) (t1 t2 : ℤ)
    (hle : t1 ≤ t2) (h : lookupPredictions cache t1 ticker = none) :
    lookupPredictions cache t2 ticker = none := by
  unfold lookupPredictions cacheGet at h ⊢
  cases hc : cache ("predictions_" ++ ticker) with
  | none => simp
  | some e =>
      simp only [hc] at h ⊢
      by_cases h2 : t2 - e.timestamp < cacheTimeout
      · have h1 : t1 - e.timestamp < cacheTimeout := by linarith
        rw [if_pos h1] at h
        rw [if_pos h2]
        exact h
      · rw [if_neg h2]

theorem lookupNews_none_mono (cache : Cache) (ticker : String) (t1 t2 : ℤ)
    (hle : t1 ≤ t2) (h : lookupNews cache t1 ticker = none) :
    lookupNews cache t2 ticker = none := by
  unfold lookupNews cacheGet at h ⊢
  cases hc : cache ("news_" ++ ticker) with
  | none => simp
  | some e =>
      simp only [hc] at h ⊢
      by_cases h2 : t2 - e.timestamp < cacheTimeout
      · have h1 : t1 - e.timestamp < cacheTimeout := by linarith
        rw [if_pos h1] at h
        rw [if_pos h2]
        exact h
      · rw [if_neg h2]

/-- C1: on a cache miss, an upstream rejection escapes the try block of
each of the three public operations, and the surrounding catch absorbs it
and returns the synthetic fallback value of the operation instead, so
each operation resolves with a value of its own category and no error
propagates to the caller. -/
theorem getters_absorb_upstream_failure (ticker : String) (cache : Cache)
    (now today : ℤ) (r : ℕ → ℚ)
    (hS : lookupStock cache now ticker = none)
    (hP : lookupPredictions cache now ticker = none)
    (hN : lookupNews cache now ticker = none) :
    (getStockInfoTry ticker cache now (.error ()) = .error () ∧
     getStockInfo ticker cache now (.error ()) r =
       ⟨getFallbackStockInfo ticker r, cache, true⟩) ∧
    (getPredictionsTry ticker cache now today (.error ()) = .error () ∧
     getPredictions ticker cache now today (.error ()) r =
       ⟨getFallbackPredictions ticker today r, cache, true⟩) ∧
    (getNewsTry ticker cache now (.error ()) = .error () ∧
     getNews ticker cache now (.error ()) r =
       ⟨getFallbackNews ticker now, cache, true⟩) := by
  simp [getStockInfoTry, getStockInfo, getPredictionsTry, getPredictions,
    getNewsTry, getNews, hS, hP, hN]

/-- Witness for C1 on the empty cache. -/
theorem getters_absorb_upstream_failure_witness :
    getStockInfo "AAPL" emptyCache 0 (.error ()) halfRand =
      ⟨getFallbackStockInfo "AAPL" halfRand, emptyCache, true⟩ ∧
    getNews "AAPL" emptyCache 0 (.error ()) halfRand =
      ⟨getFallbackNews "AAPL" 0, emptyCache, true⟩ :=
  have h := getters_absorb_upstream_failure "AAPL" emptyCache 0 0 halfRand rfl rfl rfl
  ⟨h.1.2, h.2.2.2⟩

/-- C5: for a fixed ticker, a first call on a cache miss with a successful
provider fetch stores the payload, and a second call within the TTL window
returns exactly that cached payload with no further provider call, for
each of the three operations: one underlying call in total. -/
theorem cached_repeat_call_spec (ticker : String) (cache : Cache) (t1 t2 today : ℤ)
    (d : StockData) (m : ModelPredictionResult) (nd : List NewsData)
    (r1 r2 : ℕ → ℚ) (upS : Except Unit StockData)
    (upP : Except Unit ModelPredictionResult) (upN : Except Unit (List NewsData))
    (hfresh : t2 - t1 < cacheTimeout)
    (hS : lookupStock cache t1 ticker = none)
    (hP : lookupPredictions cache t1 ticker = none)
    (hN : lookupNews cache t1 ticker = none) :
    ((getStockInfo ticker cache t1 (.ok d) r1).fetched = true ∧
     getStockInfo ticker (getStockInfo ticker cache t1 (.ok d) r1).cache t2 upS r2 =
       ⟨(getStockInfo ticker cache t1 (.ok d) r1).value,
        (getStockInfo ticker cache t1 (.ok d) r1).cache, false⟩) ∧
    ((getPredictions ticker cache t1 today (.ok m) r1).fetched = true ∧
     getPredictions ticker (getPredictions ticker cache t1 today (.ok m) r1).cache t2 today
         upP r2 =
       ⟨(getPredictions ticker cache t1 today (.ok m) r1).value,
        (getPredictions ticker cache t1 today (.ok m) r1).cache, false⟩) ∧
    ((getNews ticker cache t1 (.ok nd) r1).fetched = true ∧
     getNews ticker (getNews ticker cache t1 (.ok nd) r1).cache t2 upN r2 =
       ⟨(getNews ticker cache t1 (.ok nd) r1).value,
        (getNews ticker cache t1 (.ok nd) r1).cache, false⟩) := by
  refine ⟨⟨?_, ?_⟩, ⟨?_, ?_⟩, ⟨?_, ?_⟩⟩
  · simp [getStockInfo, getStockInfoTry, hS]
  · simp [getStockInfo, getStockInfoTry, hS, lookupStock_set t1 t2 hfresh]
  · simp [getPredictions, getPredictionsTry, hP]
  · simp [getPredictions, getPredictionsTry, hP, lookupPredictions_set t1 t2 hfresh]
  · simp [getNews, getNewsTry, hN]
  · simp [getNews, getNewsTry, hN, lookupNews_set t1 t2 hfresh]

/-- Witness for C5: two immediate getStockInfo calls on the empty cache. -/
theorem cached_repeat_call_spec_witness :
    (getStockInfo "AAPL" emptyCache 0 (.ok sampleStockData) halfRand).fetched = true ∧
    getStockInfo "AAPL" (getStockInfo "AAPL" emptyCache 0 (.ok sampleStockData) halfRand).cache
        0 (.error ()) halfRand =
      ⟨(getStockInfo "AAPL" emptyCache 0 (.ok sampleStockData) halfRand).value,
       (getStockInfo "AAPL" emptyCache 0 (.ok sampleStockData) halfRand).cache, false⟩ :=
  have h := cached_repeat_call_spec "AAPL" emptyCache 0 0 0 sampleStockData
    sampleModelResult sampleNewsData halfRand halfRand (.error ()) (.error ()) (.error ())
    (by decide) rfl rfl rfl
  ⟨h.1.1, h.1.2⟩

/-- C10: on a cache miss with a failed fetch, each operation returns its
synthetic fallback and leaves the cache unchanged, so a later call for the
same ticker attempts the provider fetch again instead of returning the
fallback from the cache. -/
theorem error_path_no_cache_write (ticker : String) (cache : Cache) (t1 t2 today : ℤ)
    (r1 r2 : ℕ → ℚ) (upS : Except Unit StockData)
    (upP : Except Unit ModelPredictionResult) (upN : Except Unit (List NewsData))
    (hle : t1 ≤ t2)
    (hS : lookupStock cache t1 ticker = none)
    (hP : lookupPredictions cache t1 ticker = none)
    (hN : lookupNews cache t1 ticker = none) :
    (getStockInfo ticker cache t1 (.error ()) r1 =
       ⟨getFallbackStockInfo ticker r1, cache, true⟩ ∧
     (getStockInfo ticker cache t2 upS r2).fetched = true) ∧
    (getPredictions ticker cache t1 today (.error ()) r1 =
       ⟨getFallbackPredictions ticker today r1, cache, true⟩ ∧
     (getPredictions ticker cache t2 today upP r2).fetched = true) ∧
    (getNews ticker cache t1 (.error ()) r1 =
       ⟨getFallbackNews ticker t1, cache, true⟩ ∧
     (getNews ticker cache t2 upN r2).fetched = true) := by
  have hS2 := lookupStock_none_mono cache ticker t1 t2 hle hS
  have hP2 := lookupPredictions_none_mono cache ticker t1 t2 hle hP
  have hN2 := lookupNews_none_mono cache ticker t1 t2 hle hN
  refine ⟨⟨?_, ?_⟩, ⟨?_, ?_⟩, ⟨?_, ?_⟩⟩
  · simp [getStockInfo, getStockInfoTry, hS]
  · cases upS <;> simp [getStockInfo, getStockInfoTry, hS2]
  · simp [getPredictions, getPredictionsTry, hP]
  · cases upP <;> simp [getPredictions, getPredictionsTry, hP2]
  · simp [getNews, getNewsTry, hN]
  · cases upN <;> simp [getNews, getNewsTry, hN2]

/-- Witness for C10: a failed fetch at time 0 on the empty cache, then a
fresh fetch attempt at time 1. -/
theorem error_path_no_cache_write_witness :
    getStockInfo "TSLA" emptyCache 0 (.error ()) halfRand =
      ⟨getFallbackStockInfo "TSLA" halfRand, emptyCache, true⟩ ∧
    (getStockInfo "TSLA" emptyCache 1 (.ok sampleStockData) halfRand).fetched = true :=
  have h := error_path_no_cache_write "TSLA" emptyCache 0 1 0 halfRand halfRand
    (.ok sampleStockData) (.ok sampleModelResult) (.ok sampleNewsData)
    (by decide) rfl rfl rfl
  ⟨h.1.1, h.1.2⟩
